import Mathlib

/-!
Shallow embedding of the StatAnalyzer Pro backend
(src/statanalyzer-pro/backend/main.py) for checking the natural-language
specification against the code.

Tables are modelled row-wise: a row is an association list from column
names to cells; a cell is a rational number, a text value, or the missing
marker (pandas NaN).  The module-level `data_store` dict is modelled as an
explicit association list passed through every operation.  Machine floats
are idealised as exact rationals.  External numerical libraries (scipy,
statsmodels, sklearn) are out of scope per the spec and are passed in as a
record of black-box functions (`Libs`); only their documented contracts
that the control flow depends on (e.g. scipy's Shapiro-Wilk rejecting
samples shorter than 3) are modelled explicitly.
-/

namespace StatAnalyzer

/-- A single cell of a table: numeric, text, or the missing marker (NaN). -/
inductive Cell where
  | num (v : ℚ)
  | txt (s : String)
  | missing
deriving DecidableEq

/-- A row: association list from column name to cell. -/
abbrev Row := List (String × Cell)

/-- A table: column headers (name, is-numeric-dtype flag) plus rows.
`numericCols` below models `df.select_dtypes(include=[np.number])`. -/
structure Table where
  cols : List (String × Bool)
  rows : List Row
deriving DecidableEq

def Table.colNames (t : Table) : List String := t.cols.map Prod.fst

def Table.numericCols (t : Table) : List String :=
  (t.cols.filter (fun c => c.2)).map Prod.fst

def Cell.isMissing : Cell → Bool
  | .missing => true
  | _ => false

def Cell.toNum? : Cell → Option ℚ
  | .num v => some v
  | _ => none

/-- Value of column `c` in row `r`; absent key behaves as missing. -/
def cellAt (r : Row) (c : String) : Cell :=
  (r.lookup c).getD Cell.missing

/-- The column `c` as a list of cells (`df[c]`). -/
def colVals (t : Table) (c : String) : List Cell :=
  t.rows.map (fun r => cellAt r c)

/-- `df[c].dropna()` restricted to numeric cells, as rationals. -/
def colValsDropna (t : Table) (c : String) : List ℚ :=
  t.rows.filterMap (fun r => (cellAt r c).toNum?)

/-- The module-level `data_store` dict, as an association list; the head
binding shadows older ones, matching dict assignment for lookups. -/
abbrev Store := List (String × Table)

/-- `data_store[id] = df`. -/
def Store.put (s : Store) (id : String) (t : Table) : Store :=
  (id, t) :: s

/-! ## Numeric helpers (pandas semantics over exact rationals) -/

def qsum (l : List ℚ) : ℚ := l.foldr (fun a b => a + b) 0

/-- `Series.mean()` over the non-missing values. -/
def qmean (l : List ℚ) : ℚ := qsum l / l.length

/-- `Series.var()`/`std()^2`, pandas default `ddof = 1`.  For a singleton
the rational division by zero yields 0, matching the fact that the NaN
standard deviation makes every z-score comparison false. -/
def qvar (l : List ℚ) : ℚ :=
  qsum (l.map (fun v => (v - qmean l) ^ 2)) / ((l.length : ℚ) - 1)

def insertSortedBy {α : Type} (le : α → α → Bool) (x : α) : List α → List α
  | [] => [x]
  | y :: ys => if le x y then x :: y :: ys else y :: insertSortedBy le x ys

def sortBy {α : Type} (le : α → α → Bool) (l : List α) : List α :=
  l.foldr (insertSortedBy le) []

def qsort (l : List ℚ) : List ℚ := sortBy (fun a b => decide (a ≤ b)) l

/-- `Series.quantile(q)` with pandas' default linear interpolation,
computed over the non-missing values handed to it. -/
def quantile (l : List ℚ) (q : ℚ) : ℚ :=
  let s := qsort l
  let n := s.length
  if n = 0 then 0
  else
    let h : ℚ := q * ((n : ℚ) - 1)
    let i : ℕ := h.floor.toNat
    let lo := s.getD i 0
    let hi := s.getD (i + 1) lo
    lo + (h - (i : ℚ)) * (hi - lo)

def qmedian (l : List ℚ) : ℚ := quantile l (1 / 2)

/-! ## `base64.urlsafe_b64encode(filename.encode())[:16]` -/

/-- UTF-8 encoding of one character as byte values. -/
def utf8Bytes (c : Char) : List ℕ :=
  let n := c.toNat
  if n < 128 then [n]
  else if n < 2048 then [192 + n / 64, 128 + n % 64]
  else if n < 65536 then [224 + n / 4096, 128 + (n / 64) % 64, 128 + n % 64]
  else [240 + n / 262144, 128 + (n / 4096) % 64, 128 + (n / 64) % 64, 128 + n % 64]

def strBytes (s : String) : List ℕ := s.toList.flatMap utf8Bytes

def b64Alphabet : List Char :=
  "ABCDEFGHIJKLMNOPQRSTUVWXYZabcdefghijklmnopqrstuvwxyz0123456789-_".toList

def b64At (i : ℕ) : Char := b64Alphabet.getD i 'A'

/-- URL-safe base64 of a byte list, with `=` padding. -/
def urlsafeB64 : List ℕ → List Char
  | [] => []
  | [b0] => [b64At (b0 / 4), b64At (b0 % 4 * 16), '=', '=']
  | [b0, b1] => [b64At (b0 / 4), b64At (b0 % 4 * 16 + b1 / 16), b64At (b1 % 16 * 4), '=']
  | b0 :: b1 :: b2 :: rest =>
      b64At (b0 / 4) :: b64At (b0 % 4 * 16 + b1 / 16) ::
      b64At (b1 % 16 * 4 + b2 / 64) :: b64At (b2 % 64) :: urlsafeB64 rest

/-- `base64.urlsafe_b64encode(file.filename.encode()).decode()[:16]`. -/
def deriveUploadId (filename : String) : String :=
  String.mk ((urlsafeB64 (strBytes filename)).take 16)

/-! ## Errors -/

/-- An HTTP-level failure: either an explicitly raised `HTTPException`
or an uncaught exception (pandas `KeyError`, scipy `ValueError`, ...),
which the framework surfaces as an unclassified 500. -/
inductive Err where
  | http (status : ℕ) (detail : String)
  | unhandled (msg : String)
deriving DecidableEq

def notFound : Err := Err.http 404 ("Data not found")

def keyError (c : String) : Err := Err.unhandled ("KeyError: " ++ c)

/-- Python `str(e)` for a starlette `HTTPException` is
`f"\x7bstatus_code\x7d: \x7bdetail\x7d"`; for other exceptions it is the message. -/
def errStr : Err → String
  | .http s d => toString s ++ ": " ++ d
  | .unhandled m => m

/-! ## External numerical libraries as black boxes

The spec treats scipy / statsmodels / sklearn as external collaborators
invoked through defined interfaces, so they enter the embedding as an
arbitrary record of total functions.  The one piece of their documented
contract the control flow depends on — scipy's Shapiro-Wilk raising for
samples shorter than 3 — is modelled explicitly at the call site. -/

structure RegressionStats where
  r_squared : ℚ
  adj_r_squared : ℚ
  f_statistic : ℚ
  p_value : ℚ
  intercept : ℚ
  slope : ℚ
deriving DecidableEq

structure Libs where
  ttest1samp : List ℚ → ℚ → ℚ × ℚ
  ols : List (ℚ × ℚ) → RegressionStats
  foneway : List (List ℚ) → ℚ × ℚ
  shapiro : List ℚ → ℚ × ℚ
  kstest : List ℚ → ℚ × ℚ
  anderson : List ℚ → ℚ × List ℚ
  pearson : List (ℚ × ℚ) → ℚ
  knnImpute : List String → Table → Table
  scaleTable : Bool → List String → Table → Table

/-- A trivial instantiation of the external libraries, used to evaluate
the embedding at concrete inputs. -/
def trivLibs : Libs where
  ttest1samp := fun _ _ => (0, 0)
  ols := fun _ => ⟨0, 0, 0, 0, 0, 0⟩
  foneway := fun _ => (0, 0)
  shapiro := fun _ => (0, 0)
  kstest := fun _ => (0, 0)
  anderson := fun _ => (0, [])
  pearson := fun _ => 0
  knnImpute := fun _ t => t
  scaleTable := fun _ _ t => t

/-! ## Request models (the pydantic `BaseModel`s) -/

structure HypothesisTestRequest where
  data_id : String
  column : String
  mu0 : ℚ
  alpha : ℚ
deriving DecidableEq

structure RegressionRequest where
  data_id : String
  y_column : String
  x_column : String
deriving DecidableEq

structure ANOVARequest where
  data_id : String
  value_column : String
  group_column : String
deriving DecidableEq

structure NormalityTestRequest where
  data_id : String
  column : String
  alpha : ℚ
deriving DecidableEq

structure DataCleaningRequest where
  data_id : String
  operation : String
  columns : Option (List String)
deriving DecidableEq

structure OutlierRemovalRequest where
  data_id : String
  method : String
  columns : List String
  threshold : Option ℚ
deriving DecidableEq

structure ScalingRequest where
  data_id : String
  method : String
  columns : List String
deriving DecidableEq

/-! ## Upload (`POST /api/upload`)

CSV/Excel decoding is the external ingestion adapter; the embedding
receives the decoded table directly and models the control flow of
`upload_data`: the whole body runs inside `try: ... except Exception as e:
raise HTTPException(status_code=500, detail=str(e))`, and the blanket
`except` also catches the `HTTPException(400)` raised for an unsupported
extension. -/

/-- Python `str.endswith`, modelled over the character sequence (the
core byte-level `String.endsWith` is opaque to kernel reduction). -/
def strEndsWith (s suffix : String) : Bool :=
  suffix.toList.isSuffixOf s.toList

def uploadInner (store : Store) (filename : String) (parsed : Table) :
    Except Err (String × Store) :=
  if strEndsWith filename (".csv") || strEndsWith filename (".xlsx")
      || strEndsWith filename (".xls") then
    let data_id := deriveUploadId filename
    .ok (data_id, store.put data_id parsed)
  else
    .error (Err.http 400 ("Unsupported file format"))

def upload_data (store : Store) (filename : String) (parsed : Table) :
    Except Err (String × Store) :=
  match uploadInner store filename parsed with
  | .ok r => .ok r
  | .error e => .error (Err.http 500 (errStr e))

/-! ## Inference endpoints -/

structure HypothesisTestResponse where
  t_statistic : ℚ
  p_value : ℚ
  sample_mean : ℚ
  sample_size : ℕ
  decision : String
deriving DecidableEq

/-- `POST /api/hypothesis-test`.  `df[request.column]` on an absent column
raises a `KeyError`, surfaced unclassified. -/
def hypothesis_test (libs : Libs) (store : Store)
    (request : HypothesisTestRequest) : Except Err HypothesisTestResponse :=
  match store.lookup request.data_id with
  | none => .error notFound
  | some df =>
    if df.colNames.contains request.column then
      let values := colValsDropna df request.column
      let tp := libs.ttest1samp values request.mu0
      .ok { t_statistic := tp.1
            p_value := tp.2
            sample_mean := qmean values
            sample_size := values.length
            decision := if tp.2 < request.alpha then "reject" else "fail_to_reject" }
    else .error (keyError request.column)

/-- Rows of `df[[c1, c2]].dropna()` projected to the two numeric values. -/
def pairVals (t : Table) (c1 c2 : String) : List (ℚ × ℚ) :=
  t.rows.filterMap (fun r =>
    match (cellAt r c1).toNum?, (cellAt r c2).toNum? with
    | some a, some b => some (a, b)
    | _, _ => none)

/-- `POST /api/regression`.  `df[[y_column, x_column]]` raises `KeyError`
on an absent column. -/
def regression_analysis (libs : Libs) (store : Store)
    (request : RegressionRequest) : Except Err RegressionStats :=
  match store.lookup request.data_id with
  | none => .error notFound
  | some df =>
    if df.colNames.contains request.y_column then
      if df.colNames.contains request.x_column then
        .ok (libs.ols (pairVals df request.x_column request.y_column))
      else .error (keyError request.x_column)
    else .error (keyError request.y_column)

structure ANOVAResponse where
  f_statistic : ℚ
  p_value : ℚ
  num_groups : ℕ
  decision : String
deriving DecidableEq

/-- Rows of `df[[value, group]].dropna()`. -/
def anovaCleanRows (t : Table) (v g : String) : List Row :=
  t.rows.filter (fun r =>
    !(cellAt r v).isMissing && !(cellAt r g).isMissing)

/-- Distinct group labels in first-appearance order
(`clean_df[group].unique()`). -/
def anovaGroups (t : Table) (v g : String) : List Cell :=
  ((anovaCleanRows t v g).map (fun r => cellAt r g)).dedup

/-- `POST /api/anova`. -/
def anova_analysis (libs : Libs) (store : Store)
    (request : ANOVARequest) : Except Err ANOVAResponse :=
  match store.lookup request.data_id with
  | none => .error notFound
  | some df =>
    if df.colNames.contains request.value_column then
      if df.colNames.contains request.group_column then
        let clean := anovaCleanRows df request.value_column request.group_column
        let groups := anovaGroups df request.value_column request.group_column
        let group_data := groups.map (fun gc =>
          (clean.filter (fun r => cellAt r request.group_column = gc)).filterMap
            (fun r => (cellAt r request.value_column).toNum?))
        let fp := libs.foneway group_data
        .ok { f_statistic := fp.1
              p_value := fp.2
              num_groups := groups.length
              decision := if fp.2 < 1 / 20 then "significant" else "not_significant" }
      else .error (keyError request.group_column)
    else .error (keyError request.value_column)

structure CorrelationResponse where
  heatmap_data : List (String × String × ℚ)
  columns : List String
deriving DecidableEq

/-- The flattened heatmap list: outer loop over the matrix rows, inner
loop over its columns, one `(x := col, y := row, value)` entry per pair of
indices — the full matrix, both triangles and the diagonal. -/
def heatmapOf (libs : Libs) (t : Table) : List (String × String × ℚ) :=
  t.numericCols.flatMap (fun r =>
    t.numericCols.map (fun c => (c, r, libs.pearson (pairVals t r c))))

/-- `GET /api/correlation/\x7bdata_id\x7d`. -/
def correlation_analysis (libs : Libs) (store : Store) (data_id : String) :
    Except Err CorrelationResponse :=
  match store.lookup data_id with
  | none => .error notFound
  | some df =>
    if df.numericCols.length < 2 then
      .error (Err.http 400 ("Need at least 2 numeric columns"))
    else
      .ok { heatmap_data := heatmapOf libs df, columns := df.numericCols }

/-! ## Normality battery (`POST /api/normality-test`) -/

/-- `Series.sample(n, random_state=seed)`: a deterministic, seed-driven
subsample of `n` of the values (without replacement), modelled as a fixed
pseudorandom selection; `pandas` guarantees exactly `n` elements whenever
`n` does not exceed the population size. -/
def sampleSeeded (seed n : ℕ) (xs : List ℚ) : List ℚ :=
  (xs.rotate seed).take n

/-- `values.sample(5000, random_state=42) if len(values) > 5000 else values`. -/
def shapiroInput (values : List ℚ) : List ℚ :=
  if 5000 < values.length then sampleSeeded 42 5000 values else values

structure NormalityTestResponse where
  shapiro_statistic : ℚ
  shapiro_p : ℚ
  shapiro_result : String
  ks_statistic : ℚ
  ks_p : ℚ
  ks_result : String
  anderson_statistic : ℚ
  anderson_critical_values : List ℚ
deriving DecidableEq

/-- `POST /api/normality-test`.  No sample-size precondition is checked in
the code; scipy's `stats.shapiro` itself raises for samples shorter
than 3 (its documented contract), and that exception propagates
unclassified. -/
def normality_test (libs : Libs) (store : Store)
    (request : NormalityTestRequest) : Except Err NormalityTestResponse :=
  match store.lookup request.data_id with
  | none => .error notFound
  | some df =>
    if df.colNames.contains request.column then
      let values := colValsDropna df request.column
      let shapiro_values := shapiroInput values
      if shapiro_values.length < 3 then
        .error (Err.unhandled ("Data must be at least length 3."))
      else
        let sw := libs.shapiro shapiro_values
        let ks := libs.kstest values
        let ad := libs.anderson values
        .ok { shapiro_statistic := sw.1
              shapiro_p := sw.2
              shapiro_result := if request.alpha < sw.2 then "normal" else "not_normal"
              ks_statistic := ks.1
              ks_p := ks.2
              ks_result := if request.alpha < ks.2 then "normal" else "not_normal"
              anderson_statistic := ad.1
              anderson_critical_values := ad.2 }
    else .error (keyError request.column)

/-! ## Cleaning pipeline (`POST /api/clean-missing`) -/

/-- `row` has a non-missing entry in every column of `cols`. -/
def rowComplete (cols : List String) (r : Row) : Bool :=
  cols.all (fun c => !(cellAt r c).isMissing)

/-- `df.dropna(subset=cols)`. -/
def dropnaSubset (t : Table) (cols : List String) : Table :=
  { t with rows := t.rows.filter (rowComplete cols) }

/-- `df[c] = df[c].fillna(v)`. -/
def fillMissingCell (t : Table) (c : String) (v : Cell) : Table :=
  { t with rows := t.rows.map (fun r =>
      r.map (fun p => if p.1 = c && p.2.isMissing then (c, v) else p)) }

/-- Ordering used by pandas to sort the tied candidates of `mode()`. -/
def cellLe (a b : Cell) : Bool :=
  match a, b with
  | .num x, .num y => decide (x ≤ y)
  | .num _, _ => true
  | .txt x, .txt y => decide (x ≤ y)
  | .txt _, .num _ => false
  | .txt _, .missing => true
  | .missing, .missing => true
  | .missing, _ => false

/-- `df[c].mode()[0] if not df[c].mode().empty else 0`: the smallest of
the most frequent non-missing values, defaulting to the number 0. -/
def modeCell (cells : List Cell) : Cell :=
  let present := cells.filter (fun c => !c.isMissing)
  let cands := present.dedup
  let maxCount := (cands.map (fun c => present.count c)).foldr max 0
  match sortBy cellLe (cands.filter (fun c => present.count c = maxCount)) with
  | [] => Cell.num 0
  | w :: _ => w

/-- The `fill_mean` / `fill_median` loop: per column, skip it unless it is
present and numeric-dtyped, otherwise fill its missing cells with `f`
applied to its non-missing values. -/
def fillNumericWith (f : List ℚ → ℚ) (t : Table) (cols : List String) : Table :=
  cols.foldl (fun acc c =>
    if acc.colNames.contains c && acc.numericCols.contains c then
      fillMissingCell acc c (Cell.num (f (colValsDropna acc c)))
    else acc) t

/-- The `fill_mode` loop: any dtype, skip absent columns. -/
def fillModeAll (t : Table) (cols : List String) : Table :=
  cols.foldl (fun acc c =>
    if acc.colNames.contains c then
      fillMissingCell acc c (modeCell (colVals acc c))
    else acc) t

/-- `cols_to_clean`: Python truthiness — `None` and the empty list both
fall back to all numeric columns. -/
def colsToClean (request : DataCleaningRequest) (t : Table) : List String :=
  match request.columns with
  | some (c :: cs) => c :: cs
  | _ => t.numericCols

/-- The operation dispatch of `clean_missing_values`, producing the new
table or the error of the failing branch.  `df.dropna(subset=...)` and
`df[cols_to_clean]` raise `KeyError` when a requested column is absent
(pandas' documented behaviour). -/
def cleanDispatch (libs : Libs) (t : Table) (request : DataCleaningRequest) :
    Except Err Table :=
  let cols := colsToClean request t
  if request.operation = "drop_missing" then
    match cols.find? (fun c => !t.colNames.contains c) with
    | some c => .error (keyError c)
    | none => .ok (dropnaSubset t cols)
  else if request.operation = "fill_mean" then
    .ok (fillNumericWith qmean t cols)
  else if request.operation = "fill_median" then
    .ok (fillNumericWith qmedian t cols)
  else if request.operation = "fill_mode" then
    .ok (fillModeAll t cols)
  else if request.operation = "knn_impute" then
    match cols.find? (fun c => !t.colNames.contains c) with
    | some c => .error (keyError c)
    | none =>
      let numeric_cols := cols.filter (fun c => t.numericCols.contains c)
      if numeric_cols.isEmpty then
        .error (Err.http 400 ("No numeric columns to impute"))
      else .ok (libs.knnImpute numeric_cols t)
  else .error (Err.http 400 ("Invalid operation"))

/-- `POST /api/clean-missing`: on success the result table is stored under
`f"\x7brequest.data_id\x7d_cleaned_\x7brequest.operation\x7d"` and that identifier is
returned; the source entry is never touched (the code works on a copy). -/
def clean_missing_values (libs : Libs) (store : Store)
    (request : DataCleaningRequest) : Except Err (String × Store) :=
  match store.lookup request.data_id with
  | none => .error notFound
  | some df =>
    match cleanDispatch libs df request with
    | .error e => .error e
    | .ok df2 =>
      let cleaned_id := request.data_id ++ ("_cleaned_" ++ request.operation)
      .ok (cleaned_id, store.put cleaned_id df2)

/-! ## Outlier removal (`POST /api/remove-outliers`) -/

/-- One step of the IQR loop: `Q1/Q3` over the column's non-missing
values, keep rows inside `[Q1 - 1.5 IQR, Q3 + 1.5 IQR]`; a row whose cell
is missing (or non-numeric) fails the float comparison and is removed. -/
def iqrFilterCol (t : Table) (c : String) : Table :=
  let vals := colValsDropna t c
  let q1 := quantile vals (1 / 4)
  let q3 := quantile vals (3 / 4)
  let lower := q1 - 3 / 2 * (q3 - q1)
  let upper := q3 + 3 / 2 * (q3 - q1)
  { t with rows := t.rows.filter (fun r =>
      match cellAt r c with
      | .num v => decide (lower ≤ v ∧ v ≤ upper)
      | _ => false) }

/-- The z-score keep condition `abs((v - mean) / std) < thr` rendered
over exact rationals: with `std = sqrt var ≥ 0`, it is equivalent to
`0 < thr ∧ (v - mean)² < thr² · var`; a zero or NaN standard deviation
makes the float comparison false, matched by `(v - mean)² < thr² · 0`
being false. -/
def zscoreKeep (mean var thr v : ℚ) : Bool :=
  decide (0 < thr ∧ (v - mean) ^ 2 < thr ^ 2 * var)

/-- One step of the z-score loop over the current (already reduced) table. -/
def zscoreFilterCol (thr : ℚ) (t : Table) (c : String) : Table :=
  let vals := colValsDropna t c
  let m := qmean vals
  let var := qvar vals
  { t with rows := t.rows.filter (fun r =>
      match cellAt r c with
      | .num v => zscoreKeep m var thr v
      | _ => false) }

/-- `threshold = request.threshold or 3`: Python truthiness again — both
`None` and `0.0` fall back to the default 3. -/
def effThreshold (t : Option ℚ) : ℚ :=
  match t with
  | none => 3
  | some v => if v = 0 then 3 else v

/-- `POST /api/remove-outliers`.  Columns absent from the table are
silently skipped (`continue`); both methods filter sequentially, each
column acting on the already-reduced table; the result is stored under
`f"\x7brequest.data_id\x7d_no_outliers"` — the derived identifier does not
depend on the method, columns or threshold. -/
def remove_outliers (store : Store)
    (request : OutlierRemovalRequest) : Except Err (String × Store) :=
  match store.lookup request.data_id with
  | none => .error notFound
  | some df =>
    let result : Except Err Table :=
      if request.method = "iqr" then
        .ok (request.columns.foldl (fun acc c =>
          if df.colNames.contains c then iqrFilterCol acc c else acc) df)
      else if request.method = "zscore" then
        let thr := effThreshold request.threshold
        .ok (request.columns.foldl (fun acc c =>
          if df.colNames.contains c then zscoreFilterCol thr acc c else acc) df)
      else .error (Err.http 400 ("Invalid method"))
    match result with
    | .error e => .error e
    | .ok df2 =>
      let cleaned_id := request.data_id ++ ("_no_outliers")
      .ok (cleaned_id, store.put cleaned_id df2)

/-! ## Scaling (`POST /api/scale-data`) -/

/-- `POST /api/scale-data`: validate the method, then
`df[request.columns] = scaler.fit_transform(df[request.columns])` —
a `KeyError` on any absent column — and store the result under
`f"\x7brequest.data_id\x7d_scaled_\x7brequest.method\x7d"`. -/
def scale_data (libs : Libs) (store : Store)
    (request : ScalingRequest) : Except Err (String × Store) :=
  match store.lookup request.data_id with
  | none => .error notFound
  | some df =>
    let scaler? : Except Err Bool :=
      if request.method = "standard" then .ok true
      else if request.method = "minmax" then .ok false
      else .error (Err.http 400 ("Invalid scaling method"))
    match scaler? with
    | .error e => .error e
    | .ok standard =>
      match request.columns.find? (fun c => !df.colNames.contains c) with
      | some c => .error (keyError c)
      | none =>
        let df2 := libs.scaleTable standard request.columns df
        let scaled_id := request.data_id ++ ("_scaled_" ++ request.method)
        .ok (scaled_id, store.put scaled_id df2)

/-! ## Forecast extension -/

/-- Exponential smoothing recursion after the first point:
`s_i = a * x_i + (1 - a) * s_(i-1)`. -/
def sesFrom (a s : ℚ) : List ℚ → List ℚ
  | [] => []
  | x :: xs =>
    let s2 := a * x + (1 - a) * s
    s2 :: sesFrom a s2 xs

/-- Single-exponential smoothing, seeded with the first observation. -/
def sesSmooth (a : ℚ) : List ℚ → List ℚ
  | [] => []
  | x :: xs => x :: sesFrom a x xs

inductive ForecastErr where
  | notFound
  | insufficientData
deriving DecidableEq

structure ForecastRequest where
  data_id : String
  column : String
  periods : ℕ
deriving DecidableEq

structure ForecastResponse where
  smoothed : List ℚ
  trend : ℚ
  forecast_points : List ℚ
deriving DecidableEq

/-- Modelled from the spec: the Business-Metrics/Forecast Extension's
forecast operation is described in the spec (§4.5, §8) but no
implementation of it is present under src/.  Per the spec it requires at
least 3 non-missing values in the target column, failing with
`InsufficientData` otherwise; applies single-exponential smoothing with a
fixed smoothing factor of 0.3; derives the linear trend
`(last_smoothed - first_smoothed) / series_length`; and projects
`periods` future points by extrapolating the trend from the last smoothed
value. -/
def forecast (store : Store) (request : ForecastRequest) :
    Except ForecastErr ForecastResponse :=
  match store.lookup request.data_id with
  | none => .error ForecastErr.notFound
  | some df =>
    let values := colValsDropna df request.column
    if values.length < 3 then .error ForecastErr.insufficientData
    else
      let smoothed := sesSmooth (3 / 10) values
      let lastS := smoothed.getLast?.getD 0
      let firstS := smoothed.head?.getD 0
      let trend := (lastS - firstS) / (values.length : ℚ)
      .ok { smoothed := smoothed
            trend := trend
            forecast_points :=
              (List.range request.periods).map (fun i => lastS + trend * ((i : ℚ) + 1)) }

/-! ## Concrete data for evaluating the embedding -/

/-- Extract the resulting store of a successful store-writing operation. -/
def storeOf : Except Err (String × Store) → Store
  | .ok r => r.2
  | .error _ => []

/-- Extract the returned identifier of a successful store-writing operation. -/
def idOf : Except Err (String × Store) → String
  | .ok r => r.1
  | .error _ => ""

/-- One numeric column `a` holding `[1, 2, 3, 4, 5, 100]`. -/
def tbl6 : Table :=
  { cols := [("a", true)]
    rows := [[("a", Cell.num 1)], [("a", Cell.num 2)], [("a", Cell.num 3)],
             [("a", Cell.num 4)], [("a", Cell.num 5)], [("a", Cell.num 100)]] }

/-- The spec's `drop_missing` example: numeric columns `a`, `b` with rows
`\x7ba:1,b:2\x7d`, `\x7ba:None,b:3\x7d`, `\x7ba:4,b:None\x7d`. -/
def tblAB : Table :=
  { cols := [("a", true), ("b", true)]
    rows := [[("a", Cell.num 1), ("b", Cell.num 2)],
             [("a", Cell.missing), ("b", Cell.num 3)],
             [("a", Cell.num 4), ("b", Cell.missing)]] }

/-- Two numeric columns `a`, `b`, no missing values. -/
def tbl2c : Table :=
  { cols := [("a", true), ("b", true)]
    rows := [[("a", Cell.num 1), ("b", Cell.num 2)],
             [("a", Cell.num 3), ("b", Cell.num 4)]] }

/-- A numeric column `a` with only two non-missing values. -/
def tbl2v : Table :=
  { cols := [("a", true)]
    rows := [[("a", Cell.num 1)], [("a", Cell.num 2)]] }

/-- A numeric column `a` with 5001 values. -/
def tblBig : Table :=
  { cols := [("a", true)]
    rows := List.replicate 5001 [("a", Cell.num 1)] }

/-- A numeric column `v` with values `[1, 2, 4]`. -/
def tbl3v : Table :=
  { cols := [("v", true)]
    rows := [[("v", Cell.num 1)], [("v", Cell.num 2)], [("v", Cell.num 4)]] }

/-- One numeric-dtyped column `a` whose only row is missing (NaN). -/
def tblMiss : Table := { cols := [("a", true)], rows := [[("a", Cell.missing)]] }

/-- The same headers with every row removed. -/
def tblMissEmpty : Table := { cols := [("a", true)], rows := [] }

/-- Store resulting from uploading `tblMiss` as `d.csv` into an empty store. -/
def c2store1 : Store := storeOf (upload_data [] ("d.csv") tblMiss)

/-- ... then an outlier-removal call targeting no columns (stores an
unchanged copy under the derived identifier). -/
def c2store2 : Store :=
  storeOf (remove_outliers c2store1
    { data_id := deriveUploadId ("d.csv"), method := "iqr",
      columns := [], threshold := none })

/-- ... then an IQR outlier-removal call on the same parent targeting
column `a`: its all-missing cells fail the bound comparisons (NaN
comparisons are false), so every row is removed — and the result lands on
the same derived identifier. -/
def c2store3 : Store :=
  storeOf (remove_outliers c2store2
    { data_id := deriveUploadId ("d.csv"), method := "iqr",
      columns := ["a"], threshold := none })

instance {ε α : Type} [DecidableEq ε] [DecidableEq α] : DecidableEq (Except ε α) :=
  fun a b =>
    match a, b with
    | .ok x, .ok y =>
      if h : x = y then .isTrue (by rw [h]) else .isFalse (by intro hc; cases hc; exact h rfl)
    | .error x, .error y =>
      if h : x = y then .isTrue (by rw [h]) else .isFalse (by intro hc; cases hc; exact h rfl)
    | .ok _, .error _ => .isFalse (by intro hc; cases hc)
    | .error _, .ok _ => .isFalse (by intro hc; cases hc)

/-! # Helper lemmas -/

theorem lookup_put_self (s : Store) (i : String) (t : Table) :
    (s.put i t).lookup i = some t := by
  simp [Store.put, List.lookup]

theorem lookup_put_ne (s : Store) (i x : String) (t : Table) (h : x ≠ i) :
    (s.put i t).lookup x = s.lookup x := by
  have hb : (x == i) = false := beq_eq_false_iff_ne.mpr h
  simp [Store.put, List.lookup, hb]

theorem append_ne_self (a b : String) (h : 0 < b.length) : a ++ b ≠ a := by
  intro he
  have hl := congrArg String.length he
  rw [String.length_append] at hl
  omega

theorem upload_ok_inv {s : Store} {fn : String} {tb : Table} {i : String} {o : Store}
    (h : upload_data s fn tb = .ok (i, o)) :
    i = deriveUploadId fn ∧ o = s.put i tb := by
  unfold upload_data uploadInner at h
  by_cases hc : (strEndsWith fn (".csv") || strEndsWith fn (".xlsx") || strEndsWith fn (".xls")) = true
  · rw [if_pos hc] at h
    simp only [Except.ok.injEq, Prod.mk.injEq] at h
    exact ⟨h.1.symm, by rw [← h.2, h.1]⟩
  · rw [if_neg hc] at h
    simp at h

theorem clean_ok_inv {libs : Libs} {s : Store} {r : DataCleaningRequest}
    {i : String} {o : Store}
    (h : clean_missing_values libs s r = .ok (i, o)) :
    i = r.data_id ++ ("_cleaned_" ++ r.operation) ∧ ∃ df2, o = s.put i df2 := by
  unfold clean_missing_values at h
  cases hl : s.lookup r.data_id with
  | none => simp [hl] at h
  | some df =>
    cases hd : cleanDispatch libs df r with
    | error e => simp [hl, hd] at h
    | ok df2 =>
      simp only [hl, hd, Except.ok.injEq, Prod.mk.injEq] at h
      exact ⟨h.1.symm, df2, by rw [← h.2, h.1]⟩

theorem outliers_ok_inv {s : Store} {r : OutlierRemovalRequest}
    {i : String} {o : Store}
    (h : remove_outliers s r = .ok (i, o)) :
    i = r.data_id ++ ("_no_outliers") ∧ ∃ df2, o = s.put i df2 := by
  unfold remove_outliers at h
  split at h
  · simp at h
  · split at h
    · simp only [Except.ok.injEq, Prod.mk.injEq] at h
      exact ⟨h.1.symm, _, by rw [← h.2, h.1]⟩
    · split at h
      · simp only [Except.ok.injEq, Prod.mk.injEq] at h
        exact ⟨h.1.symm, _, by rw [← h.2, h.1]⟩
      · simp at h

theorem scale_ok_inv {libs : Libs} {s : Store} {r : ScalingRequest}
    {i : String} {o : Store}
    (h : scale_data libs s r = .ok (i, o)) :
    i = r.data_id ++ ("_scaled_" ++ r.method) ∧ ∃ df2, o = s.put i df2 := by
  unfold scale_data at h
  split at h
  · simp at h
  · split at h
    · split at h
      · simp at h
      · simp only [Except.ok.injEq, Prod.mk.injEq] at h
        exact ⟨h.1.symm, _, by rw [← h.2, h.1]⟩
    · split at h
      · split at h
        · simp at h
        · simp only [Except.ok.injEq, Prod.mk.injEq] at h
          exact ⟨h.1.symm, _, by rw [← h.2, h.1]⟩
      · simp at h

theorem length_append_pos_left (a b : String) (h : 0 < a.length) :
    0 < (a ++ b).length := by
  rw [String.length_append]; omega

/-! # Claims -/

/-- C1: the spec claims an upload with an unsupported extension fails with
`UnsupportedFormat` at HTTP 400.  The code does raise
`HTTPException(400, "Unsupported file format")` before storing anything,
but that raise sits inside `try: ... except Exception as e: raise
HTTPException(status_code=500, detail=str(e))`, and `HTTPException` is an
`Exception`, so the caller observes HTTP 500 (with the stringified 400
error as detail), not 400.  No dataset is stored, as claimed: the store
write is unreachable on this path. -/
theorem c1_upload_unsupported_extension_surfaces_as_500 :
    uploadInner [] ("data.txt") tbl6 = .error (Err.http 400 ("Unsupported file format"))
    ∧ upload_data [] ("data.txt") tbl6 = .error (Err.http 500 ("400: Unsupported file format")) :=
  ⟨rfl, rfl⟩

/-- C10: an explicit z-score threshold of 0 is coerced to the default 3 by
`threshold = request.threshold or 3` (0.0 is falsy in Python), so the
operation behaves exactly as if the default threshold 3 — or no threshold
at all — had been supplied, for every store, dataset identifier and
column list. -/
theorem c10_zscore_zero_threshold_behaves_as_default
    (store : Store) (data_id : String) (cols : List String) :
    remove_outliers store
        { data_id := data_id, method := "zscore", columns := cols, threshold := some 0 }
      = remove_outliers store
        { data_id := data_id, method := "zscore", columns := cols, threshold := some 3 }
    ∧ remove_outliers store
        { data_id := data_id, method := "zscore", columns := cols, threshold := some 0 }
      = remove_outliers store
        { data_id := data_id, method := "zscore", columns := cols, threshold := none } := by
  have he : effThreshold (some 0) = effThreshold (some 3) := by norm_num [effThreshold]
  have hn : effThreshold (some 0) = effThreshold none := by norm_num [effThreshold]
  constructor
  · unfold remove_outliers
    cases List.lookup data_id store with
    | none => rfl
    | some df => simp [he]
  · unfold remove_outliers
    cases List.lookup data_id store with
    | none => rfl
    | some df => simp [hn]

/-- C3: every successful clean-missing, remove-outliers or scale-data
operation leaves the source identifier's binding untouched and writes
exactly one new entry, the derived identifier's: the output store is the
input store with a single entry consed in front, and re-fetching the
source identifier afterwards yields exactly what it yielded before. -/
theorem c3_cleaning_preserves_source {libs : Libs} {sA sB sC : Store}
    {rA : DataCleaningRequest} {rB : OutlierRemovalRequest} {rC : ScalingRequest}
    {iA iB iC : String} {oA oB oC : Store}
    (hA : clean_missing_values libs sA rA = .ok (iA, oA))
    (hB : remove_outliers sB rB = .ok (iB, oB))
    (hC : scale_data libs sC rC = .ok (iC, oC)) :
    (oA.lookup rA.data_id = sA.lookup rA.data_id ∧ oA.tail = sA
      ∧ oA.head?.map Prod.fst = some iA)
    ∧ (oB.lookup rB.data_id = sB.lookup rB.data_id ∧ oB.tail = sB
      ∧ oB.head?.map Prod.fst = some iB)
    ∧ (oC.lookup rC.data_id = sC.lookup rC.data_id ∧ oC.tail = sC
      ∧ oC.head?.map Prod.fst = some iC) := by
  obtain ⟨hiA, dfA, hoA⟩ := clean_ok_inv hA
  obtain ⟨hiB, dfB, hoB⟩ := outliers_ok_inv hB
  obtain ⟨hiC, dfC, hoC⟩ := scale_ok_inv hC
  have nA : rA.data_id ≠ iA := by
    rw [hiA]
    exact (append_ne_self _ _ (length_append_pos_left _ _ (by decide))).symm
  have nB : rB.data_id ≠ iB := by
    rw [hiB]
    exact (append_ne_self _ _ (by decide)).symm
  have nC : rC.data_id ≠ iC := by
    rw [hiC]
    exact (append_ne_self _ _ (length_append_pos_left _ _ (by decide))).symm
  refine ⟨⟨?_, ?_, ?_⟩, ⟨?_, ?_, ?_⟩, ⟨?_, ?_, ?_⟩⟩
  · rw [hoA]; exact lookup_put_ne _ _ _ _ nA
  · rw [hoA]; rfl
  · rw [hoA]; rfl
  · rw [hoB]; exact lookup_put_ne _ _ _ _ nB
  · rw [hoB]; rfl
  · rw [hoB]; rfl
  · rw [hoC]; exact lookup_put_ne _ _ _ _ nC
  · rw [hoC]; rfl
  · rw [hoC]; rfl

/-- C3 witness: a successful run of each of the three operations on small
concrete stores, with the frame facts evaluated. -/
theorem c3_cleaning_preserves_source_witness :
    ((storeOf (clean_missing_values trivLibs [("d", tblAB)]
        { data_id := "d", operation := "drop_missing", columns := none })).lookup ("d")
        = ([("d", tblAB)] : Store).lookup ("d")
      ∧ (storeOf (clean_missing_values trivLibs [("d", tblAB)]
        { data_id := "d", operation := "drop_missing", columns := none })).tail
        = [("d", tblAB)]
      ∧ (storeOf (clean_missing_values trivLibs [("d", tblAB)]
        { data_id := "d", operation := "drop_missing", columns := none })).head?.map Prod.fst
        = some (idOf (clean_missing_values trivLibs [("d", tblAB)]
        { data_id := "d", operation := "drop_missing", columns := none })))
    ∧ ((storeOf (remove_outliers [("d", tbl6)]
        { data_id := "d", method := "iqr", columns := [], threshold := none })).lookup ("d")
        = ([("d", tbl6)] : Store).lookup ("d")
      ∧ (storeOf (remove_outliers [("d", tbl6)]
        { data_id := "d", method := "iqr", columns := [], threshold := none })).tail
        = [("d", tbl6)]
      ∧ (storeOf (remove_outliers [("d", tbl6)]
        { data_id := "d", method := "iqr", columns := [], threshold := none })).head?.map Prod.fst
        = some (idOf (remove_outliers [("d", tbl6)]
        { data_id := "d", method := "iqr", columns := [], threshold := none })))
    ∧ ((storeOf (scale_data trivLibs [("d", tbl2c)]
        { data_id := "d", method := "standard", columns := ["a"] })).lookup ("d")
        = ([("d", tbl2c)] : Store).lookup ("d")
      ∧ (storeOf (scale_data trivLibs [("d", tbl2c)]
        { data_id := "d", method := "standard", columns := ["a"] })).tail
        = [("d", tbl2c)]
      ∧ (storeOf (scale_data trivLibs [("d", tbl2c)]
        { data_id := "d", method := "standard", columns := ["a"] })).head?.map Prod.fst
        = some (idOf (scale_data trivLibs [("d", tbl2c)]
        { data_id := "d", method := "standard", columns := ["a"] }))) :=
  c3_cleaning_preserves_source
    (show clean_missing_values trivLibs [("d", tblAB)]
        { data_id := "d", operation := "drop_missing", columns := none }
      = .ok (idOf (clean_missing_values trivLibs [("d", tblAB)]
          { data_id := "d", operation := "drop_missing", columns := none }),
        storeOf (clean_missing_values trivLibs [("d", tblAB)]
          { data_id := "d", operation := "drop_missing", columns := none })) from rfl)
    (show remove_outliers [("d", tbl6)]
        { data_id := "d", method := "iqr", columns := [], threshold := none }
      = .ok (idOf (remove_outliers [("d", tbl6)]
          { data_id := "d", method := "iqr", columns := [], threshold := none }),
        storeOf (remove_outliers [("d", tbl6)]
          { data_id := "d", method := "iqr", columns := [], threshold := none })) from rfl)
    (show scale_data trivLibs [("d", tbl2c)]
        { data_id := "d", method := "standard", columns := ["a"] }
      = .ok (idOf (scale_data trivLibs [("d", tbl2c)]
          { data_id := "d", method := "standard", columns := ["a"] }),
        storeOf (scale_data trivLibs [("d", tbl2c)]
          { data_id := "d", method := "standard", columns := ["a"] })) from rfl)

/-- C2 counterexample: the claim that a stored identifier is never
re-bound to a different table fails.  Upload `tblMiss` as `d.csv`, then
run two outlier-removal requests against the uploaded identifier: both
derive the same identifier `<id>_no_outliers` (the derivation ignores
method, columns and threshold), so the second request re-binds the
identifier stored by the first — here from the one-row table to the
zero-row table. -/
theorem c2_rebinding_counterexample :
    c2store2.lookup (deriveUploadId ("d.csv") ++ ("_no_outliers")) = some tblMiss
    ∧ c2store3.lookup (deriveUploadId ("d.csv") ++ ("_no_outliers")) = some tblMissEmpty
    ∧ tblMiss ≠ tblMissEmpty :=
  ⟨rfl, rfl, by decide⟩

/-- C2 (amended): an operation re-binds at most its own derived
identifier; every identifier different from the operation's derived
identifier keeps exactly its previous binding.  (Re-binding does happen
when derivations collide — same filename uploaded twice, or two
outlier-removal requests on the same parent — as the counterexample
shows.) -/
theorem c2_amended_only_derived_id_rebound {libs : Libs} {s1 s2 s3 s4 : Store}
    {fn x : String} {tb : Table}
    {r2 : DataCleaningRequest} {r3 : OutlierRemovalRequest} {r4 : ScalingRequest}
    {i1 i2 i3 i4 : String} {o1 o2 o3 o4 : Store}
    (h1 : upload_data s1 fn tb = .ok (i1, o1)) (n1 : x ≠ i1)
    (h2 : clean_missing_values libs s2 r2 = .ok (i2, o2)) (n2 : x ≠ i2)
    (h3 : remove_outliers s3 r3 = .ok (i3, o3)) (n3 : x ≠ i3)
    (h4 : scale_data libs s4 r4 = .ok (i4, o4)) (n4 : x ≠ i4) :
    o1.lookup x = s1.lookup x ∧ o2.lookup x = s2.lookup x
    ∧ o3.lookup x = s3.lookup x ∧ o4.lookup x = s4.lookup x := by
  obtain ⟨hi1, ho1⟩ := upload_ok_inv h1
  obtain ⟨hi2, df2, ho2⟩ := clean_ok_inv h2
  obtain ⟨hi3, df3, ho3⟩ := outliers_ok_inv h3
  obtain ⟨hi4, df4, ho4⟩ := scale_ok_inv h4
  exact ⟨by rw [ho1]; exact lookup_put_ne _ _ _ _ n1,
         by rw [ho2]; exact lookup_put_ne _ _ _ _ n2,
         by rw [ho3]; exact lookup_put_ne _ _ _ _ n3,
         by rw [ho4]; exact lookup_put_ne _ _ _ _ n4⟩

/-- C2 (amended) witness: concrete successful runs of all four
operations, with an unrelated identifier's binding checked unchanged. -/
theorem c2_amended_only_derived_id_rebound_witness :
    (storeOf (upload_data [] ("d.csv") tbl6)).lookup ("zzz")
      = ([] : Store).lookup ("zzz")
    ∧ (storeOf (clean_missing_values trivLibs [("d", tblAB)]
        { data_id := "d", operation := "drop_missing", columns := none })).lookup ("zzz")
      = ([("d", tblAB)] : Store).lookup ("zzz")
    ∧ (storeOf (remove_outliers [("d", tbl6)]
        { data_id := "d", method := "iqr", columns := [], threshold := none })).lookup ("zzz")
      = ([("d", tbl6)] : Store).lookup ("zzz")
    ∧ (storeOf (scale_data trivLibs [("d", tbl2c)]
        { data_id := "d", method := "standard", columns := ["a"] })).lookup ("zzz")
      = ([("d", tbl2c)] : Store).lookup ("zzz") :=
  c2_amended_only_derived_id_rebound
    (show upload_data [] ("d.csv") tbl6
      = .ok (idOf (upload_data [] ("d.csv") tbl6),
        storeOf (upload_data [] ("d.csv") tbl6)) from rfl)
    (by decide)
    (show clean_missing_values trivLibs [("d", tblAB)]
        { data_id := "d", operation := "drop_missing", columns := none }
      = .ok (idOf (clean_missing_values trivLibs [("d", tblAB)]
          { data_id := "d", operation := "drop_missing", columns := none }),
        storeOf (clean_missing_values trivLibs [("d", tblAB)]
          { data_id := "d", operation := "drop_missing", columns := none })) from rfl)
    (by decide)
    (show remove_outliers [("d", tbl6)]
        { data_id := "d", method := "iqr", columns := [], threshold := none }
      = .ok (idOf (remove_outliers [("d", tbl6)]
          { data_id := "d", method := "iqr", columns := [], threshold := none }),
        storeOf (remove_outliers [("d", tbl6)]
          { data_id := "d", method := "iqr", columns := [], threshold := none })) from rfl)
    (by decide)
    (show scale_data trivLibs [("d", tbl2c)]
        { data_id := "d", method := "standard", columns := ["a"] }
      = .ok (idOf (scale_data trivLibs [("d", tbl2c)]
          { data_id := "d", method := "standard", columns := ["a"] }),
        storeOf (scale_data trivLibs [("d", tbl2c)]
          { data_id := "d", method := "standard", columns := ["a"] })) from rfl)
    (by decide)

/-- C4 counterexample: requesting a one-sample t-test against a column
absent from the stored table does not produce a distinguishable
`ColumnNotFound` error: the bare `df[request.column]` access raises a
`KeyError`, which no handler classifies — the caller sees an unclassified
internal failure. -/
theorem c4_missing_column_counterexample :
    hypothesis_test trivLibs [("d", tbl2c)]
      { data_id := "d", column := "zzz", mu0 := 0, alpha := 1 / 20 }
      = .error (Err.unhandled ("KeyError: zzz")) := rfl

/-- C4 (amended): across all four procedures, a referenced column absent
from the stored table surfaces as the unhandled `KeyError` of the raw
column access — an unclassified failure — not as a dedicated
`ColumnNotFound` error kind (no such classification exists in the code). -/
theorem c4_amended_missing_column_is_unhandled_keyerror
    {libs : Libs} {store : Store} {t : Table} {data_id col : String}
    (x g : String) (mu0 alpha : ℚ)
    (hl : store.lookup data_id = some t)
    (hc : t.colNames.contains col = false) :
    hypothesis_test libs store
      { data_id := data_id, column := col, mu0 := mu0, alpha := alpha }
      = .error (keyError col)
    ∧ regression_analysis libs store
      { data_id := data_id, y_column := col, x_column := x }
      = .error (keyError col)
    ∧ anova_analysis libs store
      { data_id := data_id, value_column := col, group_column := g }
      = .error (keyError col)
    ∧ normality_test libs store
      { data_id := data_id, column := col, alpha := alpha }
      = .error (keyError col) := by
  have hm : col ∉ t.colNames := by simpa using hc
  refine ⟨?_, ?_, ?_, ?_⟩
  · unfold hypothesis_test
    simp [hl, hm]
  · unfold regression_analysis
    simp [hl, hm]
  · unfold anova_analysis
    simp [hl, hm]
  · unfold normality_test
    simp [hl, hm]

/-- C4 (amended) witness: the four procedures evaluated against a stored
two-column table and the absent column name `zzz`. -/
theorem c4_amended_missing_column_is_unhandled_keyerror_witness :
    hypothesis_test trivLibs [("d", tbl2c)]
      { data_id := "d", column := "zzz", mu0 := 0, alpha := 1 / 20 }
      = .error (keyError ("zzz"))
    ∧ regression_analysis trivLibs [("d", tbl2c)]
      { data_id := "d", y_column := "zzz", x_column := "a" }
      = .error (keyError ("zzz"))
    ∧ anova_analysis trivLibs [("d", tbl2c)]
      { data_id := "d", value_column := "zzz", group_column := "a" }
      = .error (keyError ("zzz"))
    ∧ normality_test trivLibs [("d", tbl2c)]
      { data_id := "d", column := "zzz", alpha := 1 / 20 }
      = .error (keyError ("zzz")) :=
  c4_amended_missing_column_is_unhandled_keyerror ("a") ("a") 0 (1 / 20) rfl rfl

/-- C5 counterexample: a normality-battery request whose target column
has only 2 non-missing values does not fail with a distinguishable
`InsufficientData` error kind: the code performs no sample-size check,
and scipy's Shapiro-Wilk raises `Data must be at least length 3.`, which
propagates as an unclassified failure. -/
theorem c5_short_sample_counterexample :
    normality_test trivLibs [("d", tbl2v)]
      { data_id := "d", column := "a", alpha := 1 / 20 }
      = .error (Err.unhandled ("Data must be at least length 3.")) := rfl

/-- C5 (amended): for every stored table and present column with fewer
than 3 non-missing values, the normality battery fails — but with the
unclassified propagated Shapiro-Wilk library error, not with an
`InsufficientData` error kind (the code has no such check). -/
theorem c5_amended_short_sample_is_unhandled_library_error
    {libs : Libs} {store : Store} {t : Table} {data_id col : String} (alpha : ℚ)
    (hl : store.lookup data_id = some t)
    (hc : t.colNames.contains col = true)
    (hn : (colValsDropna t col).length < 3) :
    normality_test libs store { data_id := data_id, column := col, alpha := alpha }
      = .error (Err.unhandled ("Data must be at least length 3.")) := by
  have hs : shapiroInput (colValsDropna t col) = colValsDropna t col := by
    unfold shapiroInput
    rw [if_neg]
    omega
  have hm : col ∈ t.colNames := by simpa using hc
  unfold normality_test
  simp [hl, hm, hs, hn]

/-- C5 (amended) witness: the two-value column `a` of `tbl2v`. -/
theorem c5_amended_short_sample_is_unhandled_library_error_witness :
    normality_test trivLibs [("d", tbl2v)]
      { data_id := "d", column := "a", alpha := 1 / 10 }
      = .error (Err.unhandled ("Data must be at least length 3.")) :=
  c5_amended_short_sample_is_unhandled_library_error (1 / 10) rfl rfl (by decide)

theorem mem_colNames_of_mem_numericCols {t : Table} {c : String}
    (h : c ∈ t.numericCols) : c ∈ t.colNames := by
  unfold Table.numericCols at h
  unfold Table.colNames
  obtain ⟨p, hp, rfl⟩ := List.mem_map.mp h
  exact List.mem_map.mpr ⟨p, List.mem_of_mem_filter hp, rfl⟩

theorem rowComplete_eq_decide (cols : List String) (r : Row) :
    rowComplete cols r = decide (∀ c ∈ cols, (cellAt r c).isMissing = false) := by
  unfold rowComplete
  rw [Bool.eq_iff_iff]
  simp [List.all_eq_true]

theorem filterMap_replicate {α β : Type} (f : α → Option β) (n : ℕ) (a : α) :
    List.filterMap f (List.replicate n a) =
      match f a with
      | some b => List.replicate n b
      | none => [] := by
  induction n with
  | zero => cases hf : f a <;> simp [hf]
  | succ k ih =>
    cases hf : f a with
    | none =>
      rw [hf] at ih
      simp [List.replicate_succ, List.filterMap_cons, hf, ih]
    | some b =>
      rw [hf] at ih
      simp [List.replicate_succ, List.filterMap_cons, hf, ih]

theorem colValsDropna_tblBig :
    colValsDropna tblBig ("a") = List.replicate 5001 (1 : ℚ) := by
  unfold colValsDropna tblBig
  rw [filterMap_replicate]
  rfl

theorem sesFrom_length (a s : ℚ) (l : List ℚ) :
    (sesFrom a s l).length = l.length := by
  induction l generalizing s with
  | nil => rfl
  | cons x xs ih => simp [sesFrom, ih]

theorem sesSmooth_length (a : ℚ) (l : List ℚ) :
    (sesSmooth a l).length = l.length := by
  cases l with
  | nil => rfl
  | cons x xs => simp [sesSmooth, sesFrom_length]

/-- C7: `drop_missing` with no explicit column list targets exactly the
numeric-dtyped columns, and the stored derived table's rows are exactly
the source rows with no missing value in any numeric column — a filter of
the source rows, so no other row is removed and no row is altered or
reordered. -/
theorem c7_drop_missing_default_removes_exactly_incomplete_rows
    {libs : Libs} {store : Store} {data_id : String} {t : Table}
    (hl : store.lookup data_id = some t) :
    clean_missing_values libs store
      { data_id := data_id, operation := "drop_missing", columns := none }
      = .ok (data_id ++ ("_cleaned_drop_missing"),
        store.put (data_id ++ ("_cleaned_drop_missing"))
          { cols := t.cols
            rows := t.rows.filter (fun r =>
              decide (∀ c ∈ t.numericCols, (cellAt r c).isMissing = false)) }) := by
  have hfind : t.numericCols.find? (fun c => !decide (c ∈ t.colNames)) = none := by
    apply List.find?_eq_none.mpr
    intro c hc
    simp [mem_colNames_of_mem_numericCols hc]
  have hfun : rowComplete t.numericCols
      = fun r => decide (∀ c ∈ t.numericCols, (cellAt r c).isMissing = false) :=
    funext (rowComplete_eq_decide t.numericCols)
  unfold clean_missing_values cleanDispatch colsToClean dropnaSubset
  simp only [hl]
  simp [hfind, hfun]

/-- C7 witness: the spec's own example table, rows with `a,b` values
`(1,2)`, `(missing,3)`, `(4,missing)` over numeric columns `a`, `b`;
exactly the complete first row survives. -/
theorem c7_drop_missing_default_removes_exactly_incomplete_rows_witness :
    clean_missing_values trivLibs [("d", tblAB)]
      { data_id := "d", operation := "drop_missing", columns := none }
      = .ok ("d" ++ ("_cleaned_drop_missing"),
        Store.put [("d", tblAB)] ("d" ++ ("_cleaned_drop_missing"))
          { cols := tblAB.cols
            rows := tblAB.rows.filter (fun r =>
              decide (∀ c ∈ tblAB.numericCols, (cellAt r c).isMissing = false)) })
    ∧ (storeOf (clean_missing_values trivLibs [("d", tblAB)]
        { data_id := "d", operation := "drop_missing", columns := none })).lookup
          ("d_cleaned_drop_missing")
      = some { cols := [("a", true), ("b", true)]
               rows := [[("a", Cell.num 1), ("b", Cell.num 2)]] } :=
  ⟨c7_drop_missing_default_removes_exactly_incomplete_rows rfl, by decide⟩

/-- C8: the Shapiro-Wilk input is a deterministic function of the stored
table: two runs against stores holding the same table under the requested
identifier return identical responses (in particular identical
Shapiro-Wilk statistic and p-value); and when the target column has more
than 5000 non-missing values the Shapiro input is the fixed-seed
(`random_state=42`) subsample of exactly 5000 points. -/
theorem c8_shapiro_subsample_deterministic
    {libs : Libs} {s1 s2 : Store} {data_id col : String} (alpha : ℚ) {t : Table}
    (hl1 : s1.lookup data_id = some t) (hl2 : s2.lookup data_id = some t)
    (hlen : 5000 < (colValsDropna t col).length) :
    normality_test libs s1 { data_id := data_id, column := col, alpha := alpha }
      = normality_test libs s2 { data_id := data_id, column := col, alpha := alpha }
    ∧ shapiroInput (colValsDropna t col) = sampleSeeded 42 5000 (colValsDropna t col)
    ∧ (shapiroInput (colValsDropna t col)).length = 5000 := by
  refine ⟨?_, ?_, ?_⟩
  · unfold normality_test
    rw [hl1, hl2]
  · unfold shapiroInput
    rw [if_pos hlen]
  · unfold shapiroInput sampleSeeded
    rw [if_pos hlen]
    simp [List.length_take, List.length_rotate]
    omega

/-- C8 witness: a 5001-value column stored under `d` in two different
stores. -/
theorem c8_shapiro_subsample_deterministic_witness :
    normality_test trivLibs [("d", tblBig)]
      { data_id := "d", column := "a", alpha := 1 / 20 }
      = normality_test trivLibs [("x", tbl2v), ("d", tblBig)]
      { data_id := "d", column := "a", alpha := 1 / 20 }
    ∧ shapiroInput (colValsDropna tblBig ("a"))
      = sampleSeeded 42 5000 (colValsDropna tblBig ("a"))
    ∧ (shapiroInput (colValsDropna tblBig ("a"))).length = 5000 :=
  c8_shapiro_subsample_deterministic (1 / 20) rfl rfl
    (by rw [colValsDropna_tblBig, List.length_replicate]; omega)

/-- C9: contract of the spec-modelled forecast operation: fewer than 3
non-missing values in the target column fail with `InsufficientData`;
otherwise the response carries the single-exponential smoothing of the
values with factor 0.3 (which preserves the series length), the linear
trend `(last_smoothed - first_smoothed) / series_length`, and `periods`
future points extrapolated from the last smoothed value. -/
theorem c9_forecast_contract {store : Store} {data_id col : String}
    (periods : ℕ) {t : Table}
    (hl : store.lookup data_id = some t) :
    ((colValsDropna t col).length < 3 →
      forecast store { data_id := data_id, column := col, periods := periods }
        = .error ForecastErr.insufficientData)
    ∧ (3 ≤ (colValsDropna t col).length →
      forecast store { data_id := data_id, column := col, periods := periods }
        = .ok { smoothed := sesSmooth (3 / 10) (colValsDropna t col)
                trend := ((sesSmooth (3 / 10) (colValsDropna t col)).getLast?.getD 0
                    - (sesSmooth (3 / 10) (colValsDropna t col)).head?.getD 0)
                  / ((colValsDropna t col).length : ℚ)
                forecast_points := (List.range periods).map (fun i =>
                  (sesSmooth (3 / 10) (colValsDropna t col)).getLast?.getD 0
                  + ((sesSmooth (3 / 10) (colValsDropna t col)).getLast?.getD 0
                      - (sesSmooth (3 / 10) (colValsDropna t col)).head?.getD 0)
                    / ((colValsDropna t col).length : ℚ) * ((i : ℚ) + 1)) })
    ∧ (sesSmooth (3 / 10) (colValsDropna t col)).length
      = (colValsDropna t col).length := by
  refine ⟨?_, ?_, sesSmooth_length _ _⟩
  · intro h
    unfold forecast
    rw [hl]
    simp only [if_pos h]
  · intro h
    have hge : ¬ (colValsDropna t col).length < 3 := by omega
    unfold forecast
    rw [hl]
    simp only [if_neg hge]

theorem sum_map_ite_one {α : Type} [DecidableEq α] (l : List α) (y : α) :
    (l.map (fun r => if r = y then 1 else 0)).sum
      = l.countP (fun r => decide (r = y)) := by
  induction l with
  | nil => simp
  | cons z zs ih =>
    by_cases h : z = y <;> simp [List.countP_cons, h, ih] <;> omega

theorem countP_eq_one_of_nodup_mem {α : Type} [DecidableEq α] {l : List α} {y : α}
    (hnd : l.Nodup) (hy : y ∈ l) :
    l.countP (fun r => decide (r = y)) = 1 := by
  induction l with
  | nil => simp at hy
  | cons z zs ih =>
    rw [List.nodup_cons] at hnd
    by_cases hzy : z = y
    · subst hzy
      have h0 : zs.countP (fun r => decide (r = z)) = 0 := by
        rw [List.countP_eq_zero]
        intro x hx
        simp only [decide_eq_true_eq]
        intro he
        exact hnd.1 (he ▸ hx)
      simp [List.countP_cons, h0]
    · have hmem : y ∈ zs := by
        rcases List.mem_cons.mp hy with h | h
        · exact absurd h.symm hzy
        · exact h
      simp [List.countP_cons, hzy, ih hnd.2 hmem]

theorem sum_map_add_nat {α : Type} (l : List α) (f g : α → ℕ) :
    (l.map (fun x => f x + g x)).sum = (l.map f).sum + (l.map g).sum := by
  induction l with
  | nil => simp
  | cons z zs ih =>
    simp [ih]
    omega

/-- In the full correlation grid over a duplicate-free column list, the
entries whose unordered `(x, y)` name pair is a given pair of distinct
columns number exactly two: one per orientation. -/
theorem countP_pairGrid (l : List String) (v : String → String → ℚ)
    (a b : String) (hnd : l.Nodup) (ha : a ∈ l) (hb : b ∈ l) (hab : a ≠ b) :
    (l.flatMap (fun r => l.map (fun c => (c, r, v r c)))).countP
      (fun e => decide ((e.1 = a ∧ e.2.1 = b) ∨ (e.1 = b ∧ e.2.1 = a))) = 2 := by
  rw [List.countP_flatMap]
  have hmap : List.map
      (List.countP (fun e : String × String × ℚ =>
        decide ((e.1 = a ∧ e.2.1 = b) ∨ (e.1 = b ∧ e.2.1 = a)))
        ∘ fun r => l.map fun c => (c, r, v r c)) l
      = List.map (fun r => (if r = b then 1 else 0) + (if r = a then 1 else 0)) l := by
    apply List.map_congr_left
    intro r hr
    simp only [Function.comp]
    rw [List.countP_map]
    by_cases hrb : r = b
    · have hpred : ((fun e : String × String × ℚ =>
          decide ((e.1 = a ∧ e.2.1 = b) ∨ (e.1 = b ∧ e.2.1 = a)))
            ∘ fun c => (c, r, v r c))
          = fun c => decide (c = a) := by
        funext c
        simp only [Function.comp]
        rw [decide_eq_decide]
        constructor
        · rintro (⟨h1, h2⟩ | ⟨h1, h2⟩)
          · exact h1
          · rw [hrb] at h2
            exact absurd h2.symm hab
        · intro h
          exact Or.inl ⟨h, hrb⟩
      have hrna : ¬ r = a := fun he => hab (he.symm.trans hrb)
      rw [hpred, countP_eq_one_of_nodup_mem hnd ha]
      simp [hrb, hrna, Ne.symm hab]
    · by_cases hra : r = a
      · have hpred : ((fun e : String × String × ℚ =>
            decide ((e.1 = a ∧ e.2.1 = b) ∨ (e.1 = b ∧ e.2.1 = a)))
              ∘ fun c => (c, r, v r c))
            = fun c => decide (c = b) := by
          funext c
          simp only [Function.comp]
          rw [decide_eq_decide]
          constructor
          · rintro (⟨h1, h2⟩ | ⟨h1, h2⟩)
            · exact absurd (hra.symm.trans h2) hab
            · exact h1
          · intro h
            exact Or.inr ⟨h, hra⟩
        rw [hpred, countP_eq_one_of_nodup_mem hnd hb]
        simp [hra, hrb, hab]
      · have hpred : ((fun e : String × String × ℚ =>
            decide ((e.1 = a ∧ e.2.1 = b) ∨ (e.1 = b ∧ e.2.1 = a)))
              ∘ fun c => (c, r, v r c))
            = fun c => false := by
          funext c
          simp only [Function.comp]
          apply decide_eq_false
          rintro (⟨h1, h2⟩ | ⟨h1, h2⟩)
          · exact hrb h2
          · exact hra h2
        rw [hpred]
        simp [hrb, hra]
  rw [hmap, sum_map_add_nat, sum_map_ite_one, sum_map_ite_one,
    countP_eq_one_of_nodup_mem hnd hb, countP_eq_one_of_nodup_mem hnd ha]

/-- C6 counterexample: on a two-numeric-column table the flattened
heatmap list is the full 2×2 matrix, in which the unordered pair
`(a, b)` appears twice — once per orientation — refuting the claim that
each unordered pair of distinct numeric columns occurs at most once. -/
theorem c6_duplicate_pair_counterexample :
    correlation_analysis trivLibs [("d", tbl2c)] ("d")
      = .ok { heatmap_data := [("a", "a", 0), ("b", "a", 0), ("a", "b", 0), ("b", "b", 0)]
              columns := ["a", "b"] }
    ∧ (([("a", "a", 0), ("b", "a", 0), ("a", "b", 0), ("b", "b", 0)] :
        List (String × String × ℚ)).countP
        (fun e => decide ((e.1 = "a" ∧ e.2.1 = "b") ∨ (e.1 = "b" ∧ e.2.1 = "a")))) = 2 :=
  ⟨rfl, rfl⟩

/-- C6 (amended): the flattened `heatmap_data` list enumerates the full
matrix — both triangles plus the diagonal — so each unordered pair of
distinct numeric columns appears exactly twice (once per orientation),
not at most once. -/
theorem c6_amended_each_unordered_pair_twice
    {libs : Libs} {store : Store} {data_id : String} {t : Table} {a b : String}
    (hl : store.lookup data_id = some t)
    (h2 : ¬ t.numericCols.length < 2)
    (hnd : t.numericCols.Nodup)
    (ha : a ∈ t.numericCols) (hb : b ∈ t.numericCols) (hab : a ≠ b) :
    correlation_analysis libs store data_id
      = .ok { heatmap_data := heatmapOf libs t, columns := t.numericCols }
    ∧ (heatmapOf libs t).countP
        (fun e => decide ((e.1 = a ∧ e.2.1 = b) ∨ (e.1 = b ∧ e.2.1 = a))) = 2 := by
  constructor
  · unfold correlation_analysis
    simp only [hl]
    rw [if_neg h2]
  · unfold heatmapOf
    exact countP_pairGrid t.numericCols _ a b hnd ha hb hab

/-- C6 (amended) witness: the two-column table `tbl2c`. -/
theorem c6_amended_each_unordered_pair_twice_witness :
    correlation_analysis trivLibs [("d", tbl2c)] ("d")
      = .ok { heatmap_data := heatmapOf trivLibs tbl2c, columns := tbl2c.numericCols }
    ∧ (heatmapOf trivLibs tbl2c).countP
        (fun e => decide ((e.1 = "a" ∧ e.2.1 = "b") ∨ (e.1 = "b" ∧ e.2.1 = "a"))) = 2 :=
  c6_amended_each_unordered_pair_twice rfl (by decide) (by decide)
    (by decide) (by decide) (by decide)

/-- C9 witness: the three-value column `v` of `tbl3v`. -/
theorem c9_forecast_contract_witness :
    ((colValsDropna tbl3v ("v")).length < 3 →
      forecast [("d", tbl3v)] { data_id := "d", column := "v", periods := 2 }
        = .error ForecastErr.insufficientData)
    ∧ (3 ≤ (colValsDropna tbl3v ("v")).length →
      forecast [("d", tbl3v)] { data_id := "d", column := "v", periods := 2 }
        = .ok { smoothed := sesSmooth (3 / 10) (colValsDropna tbl3v ("v"))
                trend := ((sesSmooth (3 / 10) (colValsDropna tbl3v ("v"))).getLast?.getD 0
                    - (sesSmooth (3 / 10) (colValsDropna tbl3v ("v"))).head?.getD 0)
                  / ((colValsDropna tbl3v ("v")).length : ℚ)
                forecast_points := (List.range 2).map (fun i =>
                  (sesSmooth (3 / 10) (colValsDropna tbl3v ("v"))).getLast?.getD 0
                  + ((sesSmooth (3 / 10) (colValsDropna tbl3v ("v"))).getLast?.getD 0
                      - (sesSmooth (3 / 10) (colValsDropna tbl3v ("v"))).head?.getD 0)
                    / ((colValsDropna tbl3v ("v")).length : ℚ) * ((i : ℚ) + 1)) })
    ∧ (sesSmooth (3 / 10) (colValsDropna tbl3v ("v"))).length
      = (colValsDropna tbl3v ("v")).length :=
  c9_forecast_contract 2 rfl

end StatAnalyzer
